import Mathlib

/-!
Shallow embedding of the hotline webhook service (`webservice/__main__.py`).

Each aiohttp handler becomes a pure Lean function.  Environment-based
configuration becomes an explicit `Config` record (fields that
`os.environ.get` may leave unset are `Option String`).  Query strings become
association lists.  Side effects (outbound Nexmo API requests) become values
returned alongside the HTTP response: the list of call-creation requests, the
list of SMS messages, the speech request, the list of fetched recording URLs.
Fallible behaviour (a `KeyError` on a missing query parameter) becomes
`Except HotlineError`; `random.choice` becomes an explicit index parameter.
-/

namespace Hotline

/-- A staff directory entry, one element of the JSON list in `PHONE_NUMBERS`. -/
structure PhoneEntry where
  name : String
  phone : String
deriving DecidableEq, Repr

/-- The environment-derived configuration read by the handlers. -/
structure Config where
  nexmoApiKey : Option String
  nexmoApiSecret : Option String
  phoneNumbers : List PhoneEntry
  hotlineDesc : Option String
  autoRecord : Option String
  zapierRecordingFinishedUrl : Option String
deriving DecidableEq, Repr

/-- Error raised when a required query parameter is absent
(Python raises a key-lookup error from `request.rel_url.query[...]`). -/
inductive HotlineError where
  | missingParameter (name : String)
deriving DecidableEq, Repr

/-- A query string: ordered key/value pairs. -/
abbrev Query := List (String × String)

/-- First value bound to a key, as aiohttp's multidict lookup returns. -/
def qget (q : Query) (k : String) : Option String :=
  (List.find? (fun p => p.1 == k) q).map (fun p => p.2)

/-- `request.rel_url.query[k]`: the value, or a missing-parameter error. -/
def qrequire (q : Query) (k : String) : Except HotlineError String :=
  match qget q k with
  | some v => Except.ok v
  | none => Except.error (HotlineError.missingParameter k)

/-- Python `f"...{x}..."` rendering of an optional string: `None` prints as
the text `"None"`. -/
def pyStrOfOpt : Option String → String
  | none => "None"
  | some s => s

/-- ASCII whitespace as recognised by Python's `str.strip()`. -/
def isPySpace (c : Char) : Bool :=
  c == ' ' || c == '\t' || c == '\n' || c == '\r' || c == '\x0b' || c == '\x0c'

/-- Python `str.strip()`: drop leading and trailing whitespace. -/
def pyStrip (s : String) : String :=
  String.mk (((s.data.dropWhile isPySpace).reverse.dropWhile isPySpace).reverse)

/-- Python `str.lower()` (ASCII range, which is all the flag values use). -/
def pyLower (s : String) : String :=
  String.mk (s.data.map Char.toLower)

/-- Python `random.choice` over a non-empty list, with the random draw made
an explicit `r : Nat`; the chosen index is `r` reduced modulo the length. -/
def random_choice (l : List String) (r : Nat) : String :=
  List.getD l (r % l.length) ""

/-- The fixed hold-music playlist `MUSIC_WHILE_YOU_WAIT`. -/
def MUSIC_WHILE_YOU_WAIT : List String := [
  "https://assets.ctfassets.net/j7pfe8y48ry3/530pLnJVZmiUu8mkEgIMm2/dd33d28ab6af9a2d32681ae80004886e/oaklawn-dreams.mp3",
  "https://assets.ctfassets.net/j7pfe8y48ry3/2toXv1xuOsMm0Yku0YEGya/a792ce81a7866fc77f6768d416018012/broken-shovel.mp3",
  "https://assets.ctfassets.net/j7pfe8y48ry3/16VJzaewWsKWg4GsSUiwGi/9b715be5e8c850e46de98b64e6d31141/lennys-song.mp3",
  "https://assets.ctfassets.net/j7pfe8y48ry3/1qApZVYkxaiayA6aysGAOo/8983586c8ab4db8b69490718469a12f5/new-juno.mp3",
  "https://assets.ctfassets.net/j7pfe8y48ry3/6iXXKtJCp2oCMiGmsmAKqu/8163a8fe863405292ba3609193593add/davis-square-shuffle.mp3"
]

/-- `get_phone_number_owner`: name of the first directory entry whose phone
equals the given number, else `None`. -/
def get_phone_number_owner (phone_numbers : List PhoneEntry) (phone_number : String) : Option String :=
  match phone_numbers with
  | [] => none
  | info :: rest =>
    if info.phone == phone_number then some info.name
    else get_phone_number_owner rest phone_number

/-- `is_auto_recording`: the `AUTO_RECORD` flag, defaulted to `"false"`,
lowercased, compared with `"true"`. -/
def is_auto_recording (cfg : Config) : Bool :=
  pyLower (cfg.autoRecord.getD "false") == "true"

/-- One `{"type": ..., "number": ...}` endpoint dict. -/
structure Endpoint where
  type : String
  number : String
deriving DecidableEq, Repr

/-- One `client.create_call` payload. -/
structure CallRequest where
  to_ : List Endpoint
  from_ : Endpoint
  answer_url : List String
  machine_detection : String
deriving DecidableEq, Repr

/-- One `client.send_message` payload. -/
structure SmsMessage where
  from_ : String
  to_ : String
  text : String
deriving DecidableEq, Repr

/-- One `client.send_speech` payload. -/
structure SpeechRequest where
  uuid : String
  text : String
deriving DecidableEq, Repr

/-- An NCCO action dict.  Optional fields are keys the handler includes
only sometimes (`musicOnHoldUrl`, `record`, `eventUrl`). -/
inductive Ncco where
  | talk (text : String)
  | conversation (name : String) (musicOnHoldUrl : Option (List String))
      (startOnEnter : Bool) (endOnExit : Bool)
      (record : Option Bool) (eventUrl : Option (List (Option String)))
deriving DecidableEq, Repr

/-- An aiohttp `web.Response`/`json_response` as the handlers build them. -/
structure HttpResponse where
  status : Nat
  body : Option String
  content_type : Option String
deriving DecidableEq, Repr

/-- Outcome of the provider `send_speech` request, supplied as an input to
the conference handler: the provider either returns a response or raises
`nexmo.Error`. -/
inductive SpeechOutcome where
  | success (response : String)
  | providerError (message : String)
deriving DecidableEq, Repr

/-- Handler for `GET /webhook/answer/` (`answer_call`).

Returns the NCCO instruction list together with the outbound
call-creation requests issued in the staff dial loop. -/
def answer_call (cfg : Config) (host : String) (q : Query) (r : Nat) :
    Except HotlineError (List Ncco × List CallRequest) :=
  match qrequire q "to" with
  | Except.error e => Except.error e
  | Except.ok hotline_number =>
  match qrequire q "conversation_uuid" with
  | Except.error e => Except.error e
  | Except.ok cu_raw =>
  match qrequire q "uuid" with
  | Except.error e => Except.error e
  | Except.ok uuid_raw =>
  let conversation_uuid := pyStrip cu_raw
  let call_uuid := pyStrip uuid_raw
  let greeting := "You've reached the " ++ pyStrOfOpt cfg.hotlineDesc ++ "."
  let greeting :=
    if is_auto_recording cfg then greeting ++ " This call is recorded."
    else greeting
  let conversation_ncco :=
    if is_auto_recording cfg then
      Ncco.conversation conversation_uuid
        (some [random_choice MUSIC_WHILE_YOU_WAIT r]) false false
        (some true) (some [cfg.zapierRecordingFinishedUrl])
    else
      Ncco.conversation conversation_uuid
        (some [random_choice MUSIC_WHILE_YOU_WAIT r]) false false
        none none
  let ncco := [Ncco.talk greeting, conversation_ncco]
  let calls := cfg.phoneNumbers.map (fun phone_number_dict =>
    { to_ := [{ type := "phone", number := phone_number_dict.phone }]
      from_ := { type := "phone", number := hotline_number }
      answer_url := ["http://" ++ host ++ "/webhook/answer_conference_call/"
        ++ conversation_uuid ++ "/" ++ call_uuid ++ "/"]
      machine_detection := "hangup" : CallRequest })
  Except.ok (ncco, calls)

/-- Handler for
`GET /webhook/answer_conference_call/{origin_conversation_uuid}/{origin_call_uuid}/`
(`answer_conference_call`).

`speech` is the outcome of the provider `send_speech` request; a provider
error is caught and only logged, so it does not affect the result.  Returns
the NCCO instruction list together with the speech request that was sent. -/
def answer_conference_call (cfg : Config) (q : Query)
    (origin_conversation_uuid origin_call_uuid : String)
    (speech : SpeechOutcome) :
    Except HotlineError (List Ncco × SpeechRequest) :=
  match qrequire q "to" with
  | Except.error e => Except.error e
  | Except.ok to_phone_number =>
  let phone_number_owner := get_phone_number_owner cfg.phoneNumbers to_phone_number
  let speech_request : SpeechRequest :=
    { uuid := origin_call_uuid
      text := pyStrOfOpt phone_number_owner ++ " is joining this call." }
  let _log :=
    match speech with
    | SpeechOutcome.providerError _ =>
      "error sending speech to " ++ origin_call_uuid ++ ", owner is "
        ++ pyStrOfOpt phone_number_owner
    | SpeechOutcome.success response =>
      "Successfully notified caller. " ++ response
  let ncco := [
    Ncco.talk ("Hello " ++ pyStrOfOpt phone_number_owner ++ ", connecting you to "
      ++ pyStrOfOpt cfg.hotlineDesc ++ "."),
    Ncco.conversation origin_conversation_uuid none true true none none]
  Except.ok (ncco, speech_request)

/-- Handler for `GET /webhook/inbound-sms/` (`inbound_sms`).

Returns the outbound SMS messages (staff fan-out, then the acknowledgment)
together with the HTTP response. -/
def inbound_sms (cfg : Config) (q : Query) :
    Except HotlineError (List SmsMessage × HttpResponse) :=
  match qrequire q "to" with
  | Except.error e => Except.error e
  | Except.ok hotline_number =>
  match qrequire q "msisdn" with
  | Except.error e => Except.error e
  | Except.ok from_number =>
  match qrequire q "text" with
  | Except.error e => Except.error e
  | Except.ok message =>
  let staff_messages := cfg.phoneNumbers.map (fun phone_number_dict =>
    { from_ := hotline_number
      to_ := phone_number_dict.phone
      text := from_number ++ ": " ++ message : SmsMessage })
  let ack : SmsMessage :=
    { from_ := hotline_number
      to_ := from_number
      text := "Thanks for contacting the " ++ pyStrOfOpt cfg.hotlineDesc
        ++ ". Someone should follow-up shortly. Note: they may follow up from a different number." }
  Except.ok (staff_messages ++ [ack], { status := 204, body := none, content_type := none })

/-- Python `config_value != incoming_value` where the configured value is
`Optional[str]` and the incoming one is `str`: `None` is unequal to every
string. -/
def pyOptNe (a : Option String) (b : String) : Bool :=
  match a with
  | none => true
  | some s => s != b

/-- Handler for `GET /recordings/` (`proxy_recording`).

`get_recording` abstracts the provider download.  Returns the HTTP
response together with the list of recording URLs actually fetched. -/
def proxy_recording (cfg : Config) (q : Query) (get_recording : String → String) :
    Except HotlineError (HttpResponse × List String) :=
  match qrequire q "recording_url" with
  | Except.error e => Except.error e
  | Except.ok recording_url =>
  match qrequire q "api_key" with
  | Except.error e => Except.error e
  | Except.ok incoming_api_key =>
  match qrequire q "api_secret" with
  | Except.error e => Except.error e
  | Except.ok incoming_api_secret =>
  if pyOptNe cfg.nexmoApiKey incoming_api_key
      || pyOptNe cfg.nexmoApiSecret incoming_api_secret then
    Except.ok ({ status := 401, body := none, content_type := none }, [])
  else
    Except.ok
      ({ status := 200, body := some (get_recording recording_url),
         content_type := some "audio/mpeg" }, [recording_url])

/-! ## Helper lemmas -/

theorem pyOptNe_eq_true_iff (a : Option String) (b : String) :
    pyOptNe a b = true ↔ a ≠ some b := by
  cases a <;> simp [pyOptNe]

theorem pyOptNe_eq_false_iff (a : Option String) (b : String) :
    pyOptNe a b = false ↔ a = some b := by
  cases a <;> simp [pyOptNe]

/-! ## Theorems for the claims -/

/-- C10: auto-recording is enabled exactly when the lowercased configured
`AUTO_RECORD` flag equals `"true"` (so `"TRUE"` and `"True"` also enable it),
and an absent flag defaults to `"false"`, i.e. recording disabled. -/
theorem is_auto_recording_spec (cfg : Config) :
    (∀ s, cfg.autoRecord = some s →
      (is_auto_recording cfg = true ↔ pyLower s = "true"))
    ∧ (cfg.autoRecord = none → is_auto_recording cfg = false)
    ∧ (cfg.autoRecord = some "TRUE" → is_auto_recording cfg = true)
    ∧ (cfg.autoRecord = some "True" → is_auto_recording cfg = true) := by
  refine ⟨fun s hs => ?_, fun h => ?_, fun h => ?_, fun h => ?_⟩
  · simp [is_auto_recording, hs]
  · simp [is_auto_recording, h]
    decide
  · simp [is_auto_recording, h]
    decide
  · simp [is_auto_recording, h]
    decide

/-- Witness for C10 at the concrete flag value `"TRUE"`. -/
theorem is_auto_recording_spec_witness :
    is_auto_recording ⟨none, none, [], none, some "TRUE", none⟩ = true :=
  (is_auto_recording_spec ⟨none, none, [], none, some "TRUE", none⟩).2.2.1 rfl

/-- C8: if any of the query parameters `to`, `conversation_uuid`, `uuid` is
absent, `answer_call` fails with a missing-parameter error and never returns
an instruction list (and hence issues no outbound calls). -/
theorem answer_call_missing_parameter_spec (cfg : Config) (host : String)
    (q : Query) (r : Nat)
    (h : qget q "to" = none ∨ qget q "conversation_uuid" = none ∨
      qget q "uuid" = none) :
    (∃ p, answer_call cfg host q r =
      Except.error (HotlineError.missingParameter p))
    ∧ ∀ out, answer_call cfg host q r ≠ Except.ok out := by
  suffices hs : ∃ p, answer_call cfg host q r =
      Except.error (HotlineError.missingParameter p) by
    obtain ⟨p, hp⟩ := hs
    refine ⟨⟨p, hp⟩, fun out hout => ?_⟩
    rw [hp] at hout
    exact Except.noConfusion hout
  rcases h with h | h | h
  · exact ⟨"to", by simp [answer_call, qrequire, h]⟩
  · cases hto : qget q "to" with
    | none => exact ⟨"to", by simp [answer_call, qrequire, hto]⟩
    | some v =>
      exact ⟨"conversation_uuid", by simp [answer_call, qrequire, hto, h]⟩
  · cases hto : qget q "to" with
    | none => exact ⟨"to", by simp [answer_call, qrequire, hto]⟩
    | some v =>
      cases hcu : qget q "conversation_uuid" with
      | none =>
        exact ⟨"conversation_uuid", by simp [answer_call, qrequire, hto, hcu]⟩
      | some w =>
        exact ⟨"uuid", by simp [answer_call, qrequire, hto, hcu, h]⟩

/-- Witness for C8: the empty query is missing all three parameters. -/
theorem answer_call_missing_parameter_spec_witness :
    (∃ p, answer_call ⟨none, none, [], none, none, none⟩ "example.com" [] 0 =
      Except.error (HotlineError.missingParameter p))
    ∧ ∀ out, answer_call ⟨none, none, [], none, none, none⟩ "example.com" [] 0 ≠
      Except.ok out :=
  answer_call_missing_parameter_spec ⟨none, none, [], none, none, none⟩
    "example.com" [] 0 (Or.inl rfl)

/-- C4: with all three query parameters supplied, `proxy_recording` returns
an empty 401 response and fetches nothing when either supplied credential
differs from the configured one, and fetches the recording and returns it
with status 200 and an audio content type when both match exactly. -/
theorem proxy_recording_auth_spec (cfg : Config) (q : Query)
    (get_recording : String → String) (u k s : String)
    (hu : qget q "recording_url" = some u)
    (hk : qget q "api_key" = some k)
    (hs : qget q "api_secret" = some s) :
    (cfg.nexmoApiKey ≠ some k ∨ cfg.nexmoApiSecret ≠ some s →
      proxy_recording cfg q get_recording =
        Except.ok ({ status := 401, body := none, content_type := none }, []))
    ∧ (cfg.nexmoApiKey = some k → cfg.nexmoApiSecret = some s →
      proxy_recording cfg q get_recording =
        Except.ok
          ({ status := 200, body := some (get_recording u), content_type := some "audio/mpeg" },
            [u])) := by
  constructor
  · intro hmis
    rcases hmis with hmis | hmis
    · have hb : pyOptNe cfg.nexmoApiKey k = true := (pyOptNe_eq_true_iff _ _).mpr hmis
      simp [proxy_recording, qrequire, hu, hk, hs, hb]
    · have hb : pyOptNe cfg.nexmoApiSecret s = true := (pyOptNe_eq_true_iff _ _).mpr hmis
      simp [proxy_recording, qrequire, hu, hk, hs, hb]
  · intro h1 h2
    have hc1 : pyOptNe cfg.nexmoApiKey k = false := (pyOptNe_eq_false_iff _ _).mpr h1
    have hc2 : pyOptNe cfg.nexmoApiSecret s = false := (pyOptNe_eq_false_iff _ _).mpr h2
    simp [proxy_recording, qrequire, hu, hk, hs, hc1, hc2]

/-- Witness for C4: matching credentials fetch the recording; a wrong secret
is rejected with 401 and no fetch. -/
theorem proxy_recording_auth_spec_witness :
    (proxy_recording ⟨some "K", some "S", [], none, none, none⟩
      [("recording_url", "https://api.nexmo.com/v1/files/abc"),
       ("api_key", "K"), ("api_secret", "wrong")] (fun _ => "bytes") =
      Except.ok ({ status := 401, body := none, content_type := none }, []))
    ∧ (proxy_recording ⟨some "K", some "S", [], none, none, none⟩
      [("recording_url", "https://api.nexmo.com/v1/files/abc"),
       ("api_key", "K"), ("api_secret", "S")] (fun _ => "bytes") =
      Except.ok
        ({ status := 200, body := some "bytes", content_type := some "audio/mpeg" },
          ["https://api.nexmo.com/v1/files/abc"])) := by
  constructor
  · exact (proxy_recording_auth_spec ⟨some "K", some "S", [], none, none, none⟩
      [("recording_url", "https://api.nexmo.com/v1/files/abc"),
       ("api_key", "K"), ("api_secret", "wrong")] (fun _ => "bytes")
      "https://api.nexmo.com/v1/files/abc" "K" "wrong" rfl rfl rfl).1
      (Or.inr (by decide))
  · exact (proxy_recording_auth_spec ⟨some "K", some "S", [], none, none, none⟩
      [("recording_url", "https://api.nexmo.com/v1/files/abc"),
       ("api_key", "K"), ("api_secret", "S")] (fun _ => "bytes")
      "https://api.nexmo.com/v1/files/abc" "K" "S" rfl rfl rfl).2 rfl rfl

/-- C9: if the configured API key or secret is absent (null), every request
supplying `api_key` and `api_secret` gets an empty 401 and no recording is
fetched. -/
theorem proxy_recording_null_config_spec (cfg : Config) (q : Query)
    (get_recording : String → String) (u k s : String)
    (hnull : cfg.nexmoApiKey = none ∨ cfg.nexmoApiSecret = none)
    (hu : qget q "recording_url" = some u)
    (hk : qget q "api_key" = some k)
    (hs : qget q "api_secret" = some s) :
    proxy_recording cfg q get_recording =
      Except.ok ({ status := 401, body := none, content_type := none }, []) := by
  have hcond : (pyOptNe cfg.nexmoApiKey k || pyOptNe cfg.nexmoApiSecret s) = true := by
    rcases hnull with hn | hn <;> simp [hn, pyOptNe]
  simp [proxy_recording, qrequire, hu, hk, hs, Except.bind, hcond]

/-- Witness for C9: with no configured key, correct-looking credentials are
still rejected. -/
theorem proxy_recording_null_config_spec_witness :
    proxy_recording ⟨none, some "S", [], none, none, none⟩
      [("recording_url", "https://api.nexmo.com/v1/files/abc"),
       ("api_key", "K"), ("api_secret", "S")] (fun _ => "bytes") =
      Except.ok ({ status := 401, body := none, content_type := none }, []) :=
  proxy_recording_null_config_spec ⟨none, some "S", [], none, none, none⟩
    [("recording_url", "https://api.nexmo.com/v1/files/abc"),
     ("api_key", "K"), ("api_secret", "S")] (fun _ => "bytes")
    "https://api.nexmo.com/v1/files/abc" "K" "S" (Or.inl rfl) rfl rfl rfl

/-- C5: with all three query parameters supplied, `inbound_sms` sends one
SMS per staff entry from the hotline number with text `"<sender>: <message>"`,
followed by one acknowledgment back to the sender, N + 1 sends in total, and
returns an empty 204 response. -/
theorem inbound_sms_spec (cfg : Config) (q : Query) (hn fn msg : String)
    (hto : qget q "to" = some hn)
    (hms : qget q "msisdn" = some fn)
    (htx : qget q "text" = some msg) :
    inbound_sms cfg q = Except.ok
      (cfg.phoneNumbers.map (fun e =>
          { from_ := hn, to_ := e.phone, text := fn ++ ": " ++ msg })
        ++ [{ from_ := hn, to_ := fn,
              text := "Thanks for contacting the " ++ pyStrOfOpt cfg.hotlineDesc
                ++ ". Someone should follow-up shortly. Note: they may follow up from a different number." }],
        { status := 204, body := none, content_type := none })
    ∧ ∀ msgs resp, inbound_sms cfg q = Except.ok (msgs, resp) →
        msgs.length = cfg.phoneNumbers.length + 1 := by
  have hmain : inbound_sms cfg q = Except.ok
      (cfg.phoneNumbers.map (fun e =>
          { from_ := hn, to_ := e.phone, text := fn ++ ": " ++ msg })
        ++ [{ from_ := hn, to_ := fn,
              text := "Thanks for contacting the " ++ pyStrOfOpt cfg.hotlineDesc
                ++ ". Someone should follow-up shortly. Note: they may follow up from a different number." }],
        { status := 204, body := none, content_type := none }) := by
    simp [inbound_sms, qrequire, hto, hms, htx]
  refine ⟨hmain, fun msgs resp hok => ?_⟩
  rw [hmain] at hok
  injection hok with hok
  have h1 : msgs = cfg.phoneNumbers.map (fun e =>
      { from_ := hn, to_ := e.phone, text := fn ++ ": " ++ msg })
    ++ [{ from_ := hn, to_ := fn,
          text := "Thanks for contacting the " ++ pyStrOfOpt cfg.hotlineDesc
            ++ ". Someone should follow-up shortly. Note: they may follow up from a different number." }] :=
    congrArg Prod.fst hok.symm
  simp [h1]

/-- Witness for C5 with a two-entry staff directory. -/
theorem inbound_sms_spec_witness :
    inbound_sms ⟨none, none, [⟨"Ann", "1111"⟩, ⟨"Bo", "2222"⟩], some "CoC hotline", none, none⟩
      [("to", "9999"), ("msisdn", "5550001"), ("text", "help")] = Except.ok
      ([{ from_ := "9999", to_ := "1111", text := "5550001: help" },
        { from_ := "9999", to_ := "2222", text := "5550001: help" },
        { from_ := "9999", to_ := "5550001",
          text := "Thanks for contacting the CoC hotline. Someone should follow-up shortly. Note: they may follow up from a different number." }],
        { status := 204, body := none, content_type := none }) := by
  have h := (inbound_sms_spec
    ⟨none, none, [⟨"Ann", "1111"⟩, ⟨"Bo", "2222"⟩], some "CoC hotline", none, none⟩
    [("to", "9999"), ("msisdn", "5550001"), ("text", "help")]
    "9999" "5550001" "help" rfl rfl rfl).1
  simpa using h

/-- C6: `answer_conference_call` returns the same two-element instruction
list (a talk greeting the staff member and naming the hotline description,
then joining the origin conversation with startOnEnter and endOnExit both
true) whether the notify-caller speech request succeeded or raised a
provider error: the error is caught and suppressed. -/
theorem answer_conference_call_error_suppression_spec (cfg : Config)
    (q : Query) (ocu ocall tp resp err : String)
    (hto : qget q "to" = some tp) :
    answer_conference_call cfg q ocu ocall (SpeechOutcome.success resp)
      = answer_conference_call cfg q ocu ocall (SpeechOutcome.providerError err)
    ∧ answer_conference_call cfg q ocu ocall (SpeechOutcome.providerError err)
      = Except.ok
        ([Ncco.talk ("Hello "
            ++ pyStrOfOpt (get_phone_number_owner cfg.phoneNumbers tp)
            ++ ", connecting you to " ++ pyStrOfOpt cfg.hotlineDesc ++ "."),
          Ncco.conversation ocu none true true none none],
          { uuid := ocall,
            text := pyStrOfOpt (get_phone_number_owner cfg.phoneNumbers tp)
              ++ " is joining this call." }) := by
  constructor
  · simp [answer_conference_call, qrequire, hto]
  · simp [answer_conference_call, qrequire, hto]

/-- Witness for C6 at a concrete directory and query. -/
theorem answer_conference_call_error_suppression_spec_witness :
    answer_conference_call
        ⟨none, none, [⟨"Ann", "1111"⟩], some "CoC hotline", none, none⟩
        [("to", "1111")] "c1" "u1" (SpeechOutcome.success "ok")
      = answer_conference_call
        ⟨none, none, [⟨"Ann", "1111"⟩], some "CoC hotline", none, none⟩
        [("to", "1111")] "c1" "u1" (SpeechOutcome.providerError "boom") :=
  (answer_conference_call_error_suppression_spec
    ⟨none, none, [⟨"Ann", "1111"⟩], some "CoC hotline", none, none⟩
    [("to", "1111")] "c1" "u1" "1111" "ok" "boom" rfl).1

/-- `get_phone_number_owner` returns the name of the first directory entry
whose phone number equals the argument. -/
theorem get_phone_number_owner_eq_find (l : List PhoneEntry) (p : String) :
    get_phone_number_owner l p =
      (l.find? (fun e => e.phone == p)).map PhoneEntry.name := by
  induction l with
  | nil => rfl
  | cons e rest ih =>
    cases h : (e.phone == p) <;>
      simp [get_phone_number_owner, List.find?, h, ih]

/-- C7: the staff name is looked up by exact match of the `to` number
against directory phones, taking the first matching entry; on a match that
entry's name appears in the announcement texts, and with no match the null
lookup result is rendered verbatim (as `None`) in the announcement texts
instead of raising a failure. -/
theorem answer_conference_call_owner_lookup_spec (cfg : Config) (q : Query)
    (ocu ocall tp : String) (sp : SpeechOutcome)
    (hto : qget q "to" = some tp) :
    (get_phone_number_owner cfg.phoneNumbers tp =
      (cfg.phoneNumbers.find? (fun e => e.phone == tp)).map PhoneEntry.name)
    ∧ (∀ e, cfg.phoneNumbers.find? (fun x => x.phone == tp) = some e →
        answer_conference_call cfg q ocu ocall sp = Except.ok
          ([Ncco.talk ("Hello " ++ e.name ++ ", connecting you to "
              ++ pyStrOfOpt cfg.hotlineDesc ++ "."),
            Ncco.conversation ocu none true true none none],
            { uuid := ocall, text := e.name ++ " is joining this call." }))
    ∧ ((∀ e ∈ cfg.phoneNumbers, e.phone ≠ tp) →
        get_phone_number_owner cfg.phoneNumbers tp = none
        ∧ answer_conference_call cfg q ocu ocall sp = Except.ok
          ([Ncco.talk ("Hello None, connecting you to "
              ++ pyStrOfOpt cfg.hotlineDesc ++ "."),
            Ncco.conversation ocu none true true none none],
            { uuid := ocall, text := "None is joining this call." })) := by
  refine ⟨get_phone_number_owner_eq_find _ _, fun e he => ?_, fun hnone => ?_⟩
  · have howner : get_phone_number_owner cfg.phoneNumbers tp = some e.name := by
      rw [get_phone_number_owner_eq_find, he]
      rfl
    simp [answer_conference_call, qrequire, hto, howner, pyStrOfOpt]
  · have hfind : cfg.phoneNumbers.find? (fun x => x.phone == tp) = none := by
      rw [List.find?_eq_none]
      intro x hx
      simpa using hnone x hx
    have howner : get_phone_number_owner cfg.phoneNumbers tp = none := by
      rw [get_phone_number_owner_eq_find, hfind]
      rfl
    refine ⟨howner, ?_⟩
    simp [answer_conference_call, qrequire, hto, howner, pyStrOfOpt]

/-- Witness for C7: a matched number announces the staff name, an unmatched
number announces `None`. -/
theorem answer_conference_call_owner_lookup_spec_witness :
    (answer_conference_call
        ⟨none, none, [⟨"Ann", "1111"⟩], some "CoC hotline", none, none⟩
        [("to", "1111")] "c1" "u1" (SpeechOutcome.success "ok") = Except.ok
      ([Ncco.talk "Hello Ann, connecting you to CoC hotline.",
        Ncco.conversation "c1" none true true none none],
        { uuid := "u1", text := "Ann is joining this call." }))
    ∧ (answer_conference_call
        ⟨none, none, [⟨"Ann", "1111"⟩], some "CoC hotline", none, none⟩
        [("to", "7777")] "c1" "u1" (SpeechOutcome.success "ok") = Except.ok
      ([Ncco.talk "Hello None, connecting you to CoC hotline.",
        Ncco.conversation "c1" none true true none none],
        { uuid := "u1", text := "None is joining this call." })) := by
  constructor
  · have h := (answer_conference_call_owner_lookup_spec
      ⟨none, none, [⟨"Ann", "1111"⟩], some "CoC hotline", none, none⟩
      [("to", "1111")] "c1" "u1" "1111" (SpeechOutcome.success "ok") rfl).2.1
      ⟨"Ann", "1111"⟩ rfl
    simpa using h
  · have h := ((answer_conference_call_owner_lookup_spec
      ⟨none, none, [⟨"Ann", "1111"⟩], some "CoC hotline", none, none⟩
      [("to", "7777")] "c1" "u1" "7777" (SpeechOutcome.success "ok") rfl).2.2
      (by decide)).2
    simpa using h

/-- Every `random_choice` selection from the playlist is a playlist track. -/
theorem random_choice_mem_MUSIC (r : Nat) :
    random_choice MUSIC_WHILE_YOU_WAIT r ∈ MUSIC_WHILE_YOU_WAIT := by
  have hlen : MUSIC_WHILE_YOU_WAIT.length = 5 := rfl
  have h : r % 5 = 0 ∨ r % 5 = 1 ∨ r % 5 = 2 ∨ r % 5 = 3 ∨ r % 5 = 4 := by
    omega
  show List.getD MUSIC_WHILE_YOU_WAIT (r % MUSIC_WHILE_YOU_WAIT.length) "" ∈
    MUSIC_WHILE_YOU_WAIT
  rw [hlen]
  rcases h with h | h | h | h | h <;> rw [h] <;> decide

/-- Every playlist track is attainable as a `random_choice` selection. -/
theorem MUSIC_tracks_attainable :
    ∀ t ∈ MUSIC_WHILE_YOU_WAIT, ∃ s, random_choice MUSIC_WHILE_YOU_WAIT s = t := by
  intro t ht
  fin_cases ht
  · exact ⟨0, rfl⟩
  · exact ⟨1, rfl⟩
  · exact ⟨2, rfl⟩
  · exact ⟨3, rfl⟩
  · exact ⟨4, rfl⟩

/-- C1 (amended): with all three query parameters supplied, `answer_call`
issues exactly one call-creation request per staff directory entry, in
directory order, to that entry's phone, from the dialed hotline number, with
machine detection `hangup`, and with the answer-callback URL built from the
conversation and call identifiers after surrounding whitespace is
stripped. -/
theorem answer_call_dial_loop_spec (cfg : Config) (host : String) (q : Query)
    (r : Nat) (hn cu uu : String)
    (hto : qget q "to" = some hn)
    (hcu : qget q "conversation_uuid" = some cu)
    (huu : qget q "uuid" = some uu) :
    (∃ ncco, answer_call cfg host q r = Except.ok (ncco,
      cfg.phoneNumbers.map (fun e =>
        { to_ := [{ type := "phone", number := e.phone }]
          from_ := { type := "phone", number := hn }
          answer_url := ["http://" ++ host ++ "/webhook/answer_conference_call/"
            ++ pyStrip cu ++ "/" ++ pyStrip uu ++ "/"]
          machine_detection := "hangup" : CallRequest })))
    ∧ ∀ ncco calls, answer_call cfg host q r = Except.ok (ncco, calls) →
        calls.length = cfg.phoneNumbers.length := by
  have hmain : ∃ ncco, answer_call cfg host q r = Except.ok (ncco,
      cfg.phoneNumbers.map (fun e =>
        { to_ := [{ type := "phone", number := e.phone }]
          from_ := { type := "phone", number := hn }
          answer_url := ["http://" ++ host ++ "/webhook/answer_conference_call/"
            ++ pyStrip cu ++ "/" ++ pyStrip uu ++ "/"]
          machine_detection := "hangup" : CallRequest })) := by
    cases hrec : is_auto_recording cfg with
    | false =>
      exact ⟨[Ncco.talk ("You've reached the " ++ pyStrOfOpt cfg.hotlineDesc ++ "."),
        Ncco.conversation (pyStrip cu) (some [random_choice MUSIC_WHILE_YOU_WAIT r])
          false false none none],
        by simp [answer_call, qrequire, hto, hcu, huu, hrec]⟩
    | true =>
      exact ⟨[Ncco.talk ("You've reached the " ++ pyStrOfOpt cfg.hotlineDesc ++ "."
          ++ " This call is recorded."),
        Ncco.conversation (pyStrip cu) (some [random_choice MUSIC_WHILE_YOU_WAIT r])
          false false (some true) (some [cfg.zapierRecordingFinishedUrl])],
        by simp [answer_call, qrequire, hto, hcu, huu, hrec]⟩
  obtain ⟨ncco0, h0⟩ := hmain
  refine ⟨⟨ncco0, h0⟩, fun ncco calls hok => ?_⟩
  rw [h0] at hok
  injection hok with hpair
  rw [Prod.mk.injEq] at hpair
  rw [← hpair.2]
  simp

/-- Witness for C1 with the two-entry directory of the spec's scenario. -/
theorem answer_call_dial_loop_spec_witness :
    ∃ ncco, answer_call
        ⟨none, none, [⟨"Ann", "1111"⟩, ⟨"Bo", "2222"⟩], some "D", none, none⟩
        "h" [("to", "9999"), ("conversation_uuid", "c1"), ("uuid", "u1")] 0 =
      Except.ok (ncco,
        [{ to_ := [{ type := "phone", number := "1111" }],
           from_ := { type := "phone", number := "9999" },
           answer_url := ["http://h/webhook/answer_conference_call/c1/u1/"],
           machine_detection := "hangup" },
         { to_ := [{ type := "phone", number := "2222" }],
           from_ := { type := "phone", number := "9999" },
           answer_url := ["http://h/webhook/answer_conference_call/c1/u1/"],
           machine_detection := "hangup" }]) := by
  have h := (answer_call_dial_loop_spec
    ⟨none, none, [⟨"Ann", "1111"⟩, ⟨"Bo", "2222"⟩], some "D", none, none⟩
    "h" [("to", "9999"), ("conversation_uuid", "c1"), ("uuid", "u1")] 0
    "9999" "c1" "u1" rfl rfl rfl).1
  simpa using h

/-- Counterexample to C1 as literally stated: with the supplied
conversation identifier `" c1"` (leading space), the answer-callback URL the
handler produces is built from the stripped identifier `"c1"`, and the
supplied identifier does not occur in it. -/
theorem answer_call_url_raw_identifier_counterexample :
    answer_call ⟨none, none, [⟨"Ann", "1111"⟩], some "D", none, none⟩ "h"
        [("to", "9999"), ("conversation_uuid", " c1"), ("uuid", "u1")] 0
      = Except.ok
        ([Ncco.talk "You've reached the D.",
          Ncco.conversation "c1"
            (some ["https://assets.ctfassets.net/j7pfe8y48ry3/530pLnJVZmiUu8mkEgIMm2/dd33d28ab6af9a2d32681ae80004886e/oaklawn-dreams.mp3"])
            false false none none],
          [{ to_ := [{ type := "phone", number := "1111" }],
             from_ := { type := "phone", number := "9999" },
             answer_url := ["http://h/webhook/answer_conference_call/c1/u1/"],
             machine_detection := "hangup" }])
    ∧ ¬ (" c1".data <:+: "http://h/webhook/answer_conference_call/c1/u1/".data)
    ∧ ["http://h/webhook/answer_conference_call/c1/u1/"]
        ≠ ["http://h/webhook/answer_conference_call/ c1/u1/"] := by
  refine ⟨rfl, by decide, by decide⟩

/-- C2 (amended): when auto-recording is enabled, the text appended to the
greeting is `" This call is recorded."`, and the conference instruction
carries `record := true` and an event URL list holding the configured
recording-completion webhook URL. -/
theorem answer_call_auto_recording_spec (cfg : Config) (host : String)
    (q : Query) (r : Nat) (hn cu uu : String)
    (hrec : is_auto_recording cfg = true)
    (hto : qget q "to" = some hn)
    (hcu : qget q "conversation_uuid" = some cu)
    (huu : qget q "uuid" = some uu) :
    ∃ calls, answer_call cfg host q r = Except.ok
      ([Ncco.talk ("You've reached the " ++ pyStrOfOpt cfg.hotlineDesc ++ "."
          ++ " This call is recorded."),
        Ncco.conversation (pyStrip cu) (some [random_choice MUSIC_WHILE_YOU_WAIT r])
          false false (some true) (some [cfg.zapierRecordingFinishedUrl])],
        calls) := by
  refine ⟨cfg.phoneNumbers.map (fun e =>
    { to_ := [{ type := "phone", number := e.phone }]
      from_ := { type := "phone", number := hn }
      answer_url := ["http://" ++ host ++ "/webhook/answer_conference_call/"
        ++ pyStrip cu ++ "/" ++ pyStrip uu ++ "/"]
      machine_detection := "hangup" : CallRequest }), ?_⟩
  simp [answer_call, qrequire, hto, hcu, huu, hrec]

/-- Witness for C2 with the flag set to `"true"` and a configured webhook
URL. -/
theorem answer_call_auto_recording_spec_witness :
    ∃ calls, answer_call ⟨none, none, [], some "D", some "true", some "Z"⟩ "h"
        [("to", "9999"), ("conversation_uuid", "c1"), ("uuid", "u1")] 0 =
      Except.ok
        ([Ncco.talk "You've reached the D. This call is recorded.",
          Ncco.conversation "c1"
            (some ["https://assets.ctfassets.net/j7pfe8y48ry3/530pLnJVZmiUu8mkEgIMm2/dd33d28ab6af9a2d32681ae80004886e/oaklawn-dreams.mp3"])
            false false (some true) (some [some "Z"])],
          calls) := by
  have h := answer_call_auto_recording_spec
    ⟨none, none, [], some "D", some "true", some "Z"⟩ "h"
    [("to", "9999"), ("conversation_uuid", "c1"), ("uuid", "u1")] 0
    "9999" "c1" "u1" rfl rfl rfl rfl
  simpa using h

/-- Counterexample to C2 as literally stated: the appended text is
`" This call is recorded."`, not `", this call is recorded"`; the latter
does not occur in the returned greeting at all. -/
theorem answer_call_recording_clause_counterexample :
    answer_call ⟨none, none, [], some "D", some "true", some "Z"⟩ "h"
        [("to", "9999"), ("conversation_uuid", "c1"), ("uuid", "u1")] 0
      = Except.ok
        ([Ncco.talk "You've reached the D. This call is recorded.",
          Ncco.conversation "c1"
            (some ["https://assets.ctfassets.net/j7pfe8y48ry3/530pLnJVZmiUu8mkEgIMm2/dd33d28ab6af9a2d32681ae80004886e/oaklawn-dreams.mp3"])
            false false (some true) (some [some "Z"])],
          [])
    ∧ "You've reached the D. This call is recorded."
        ≠ "You've reached the D." ++ ", this call is recorded"
    ∧ ¬ (", this call is recorded".data <:+:
          "You've reached the D. This call is recorded.".data) := by
  refine ⟨rfl, by decide, by decide⟩

/-- C3 (amended): when auto-recording is disabled, `answer_call` returns
exactly the two-element list [talk greeting, conversation join] with the
conversation named by the whitespace-stripped supplied identifier,
`endOnExit` and `startOnEnter` false, no record flag, and a one-element
`musicOnHoldUrl` drawn from the fixed playlist; the set of possible
selections equals the playlist exactly. -/
theorem answer_call_no_recording_spec (cfg : Config) (host : String)
    (q : Query) (r : Nat) (hn cu uu : String)
    (hrec : is_auto_recording cfg = false)
    (hto : qget q "to" = some hn)
    (hcu : qget q "conversation_uuid" = some cu)
    (huu : qget q "uuid" = some uu) :
    (∃ calls, answer_call cfg host q r = Except.ok
      ([Ncco.talk ("You've reached the " ++ pyStrOfOpt cfg.hotlineDesc ++ "."),
        Ncco.conversation (pyStrip cu) (some [random_choice MUSIC_WHILE_YOU_WAIT r])
          false false none none],
        calls))
    ∧ random_choice MUSIC_WHILE_YOU_WAIT r ∈ MUSIC_WHILE_YOU_WAIT
    ∧ (∀ t ∈ MUSIC_WHILE_YOU_WAIT, ∃ s, random_choice MUSIC_WHILE_YOU_WAIT s = t) := by
  refine ⟨⟨cfg.phoneNumbers.map (fun e =>
    { to_ := [{ type := "phone", number := e.phone }]
      from_ := { type := "phone", number := hn }
      answer_url := ["http://" ++ host ++ "/webhook/answer_conference_call/"
        ++ pyStrip cu ++ "/" ++ pyStrip uu ++ "/"]
      machine_detection := "hangup" : CallRequest }), ?_⟩,
    random_choice_mem_MUSIC r, MUSIC_tracks_attainable⟩
  simp [answer_call, qrequire, hto, hcu, huu, hrec]

/-- Witness for C3 with recording disabled (flag absent) and track index 2. -/
theorem answer_call_no_recording_spec_witness :
    (∃ calls, answer_call ⟨none, none, [], some "CoC hotline", none, none⟩ "h"
        [("to", "9999"), ("conversation_uuid", "c1"), ("uuid", "u1")] 2 =
      Except.ok
        ([Ncco.talk "You've reached the CoC hotline.",
          Ncco.conversation "c1"
            (some ["https://assets.ctfassets.net/j7pfe8y48ry3/16VJzaewWsKWg4GsSUiwGi/9b715be5e8c850e46de98b64e6d31141/lennys-song.mp3"])
            false false none none],
          calls))
    ∧ random_choice MUSIC_WHILE_YOU_WAIT 2 ∈ MUSIC_WHILE_YOU_WAIT := by
  have h := answer_call_no_recording_spec
    ⟨none, none, [], some "CoC hotline", none, none⟩ "h"
    [("to", "9999"), ("conversation_uuid", "c1"), ("uuid", "u1")] 2
    "9999" "c1" "u1" rfl rfl rfl rfl
  exact ⟨by simpa using h.1, h.2.1⟩

/-- Counterexample to C3 as literally stated: with the supplied conversation
identifier `"c1 "` (trailing space), the conversation instruction is named
by the stripped `"c1"`, which differs from the supplied identifier. -/
theorem answer_call_conversation_name_counterexample :
    answer_call ⟨none, none, [], some "D", none, none⟩ "h"
        [("to", "9999"), ("conversation_uuid", "c1 "), ("uuid", "u1")] 0
      = Except.ok
        ([Ncco.talk "You've reached the D.",
          Ncco.conversation "c1"
            (some ["https://assets.ctfassets.net/j7pfe8y48ry3/530pLnJVZmiUu8mkEgIMm2/dd33d28ab6af9a2d32681ae80004886e/oaklawn-dreams.mp3"])
            false false none none],
          [])
    ∧ ("c1" : String) ≠ "c1 " := by
  exact ⟨rfl, by decide⟩

end Hotline
